import Mathlib

/-!
Verification of the Medifast session and screen router (src/src/App.tsx)
and of the backend proxy handler (src/unnamed/part_000).

The router state and every state-mutating callback of `App` are embedded
as pure functions on an explicit `RouterState`; the two `useEffect`
reactions to session changes are embedded as `profileEffect` (profile
completeness, App.tsx lines 64-76) and `authFlowEffect` (auth flow and
redirects, App.tsx lines 79-99), composed as `onSessionChange`.
The external identity collaborator (Clerk) is modelled by the outcome of
each awaited call, and the proxy's backend by a `BackendOutcome`.
-/

namespace Medifast

/-- The 20-value `Screen` union type of App.tsx line 34. -/
inductive Screen
  | homepage | login | signup | register | welcome | home
  | doctors | medicine | lab | ambulance | mental | yoga | nutrition
  | notifications | profile | appointments | wellness | chat
  | aiSymptomChecker | subscription
deriving DecidableEq, Repr

/-- The 5-value `ProfessionalScreen` union type of App.tsx line 35. -/
inductive ProfessionalScreen
  | professionalPortal | doctorDashboard | pharmacistDashboard
  | labDashboard | ambulanceDashboard
deriving DecidableEq, Repr

/-- The seven `useState` hooks of `App` (App.tsx lines 55-61). -/
structure RouterState where
  currentScreen : Screen
  professionalScreen : Option ProfessionalScreen
  isProfessionalMode : Bool
  pendingNavigation : Option Screen
  isTempAccount : Bool
  showRegisterModal : Bool
  userDataComplete : Bool
deriving DecidableEq, Repr

/-- The initial values passed to `useState` (App.tsx lines 55-61). -/
def initialState : RouterState :=
  { currentScreen := .homepage
    professionalScreen := none
    isProfessionalMode := false
    pendingNavigation := none
    isTempAccount := false
    showRegisterModal := false
    userDataComplete := false }

/-- The parts of the Clerk `user` object the router reads: truthiness of
`firstName`, `lastName`, `primaryPhoneNumber`, and the two
`publicMetadata` fields consulted at App.tsx lines 68-74. -/
structure UserProfile where
  hasFirstName : Bool
  hasLastName : Bool
  hasPhone : Bool
  metaProfileComplete : Bool
  metaAccountTypeTemporary : Bool
deriving DecidableEq, Repr

/-- The reactive Clerk session: `isLoaded`, `isSignedIn`, `user`
(App.tsx line 50). -/
structure Session where
  isLoaded : Bool
  isSignedIn : Bool
  user : Option UserProfile
deriving DecidableEq, Repr

/-- `user.firstName && user.lastName && user.primaryPhoneNumber`
(App.tsx line 68), as a truthiness test. -/
def hasBasicInfo (u : UserProfile) : Bool :=
  u.hasFirstName && u.hasLastName && u.hasPhone

/-- The profile-completeness `useEffect` (App.tsx lines 64-76): returns
early unless signed in with a user, else recomputes `userDataComplete`
and `isTempAccount` from the user object. -/
def profileEffect (sess : Session) (s : RouterState) : RouterState :=
  if !sess.isSignedIn then s
  else
    match sess.user with
    | none => s
    | some u =>
        { s with
          userDataComplete := hasBasicInfo u || u.metaProfileComplete
          isTempAccount := u.metaAccountTypeTemporary || !hasBasicInfo u }

/-- The auth-flow `useEffect` (App.tsx lines 79-99): waits for Clerk to
load; when signed in, consumes a pending navigation, else redirects an
incomplete profile to `register`, else redirects auth screens to
`welcome`; when signed out, redirects `home`/`welcome` to `homepage`. -/
def authFlowEffect (sess : Session) (s : RouterState) : RouterState :=
  if !sess.isLoaded then s
  else if sess.isSignedIn && sess.user.isSome then
    match s.pendingNavigation with
    | some target => { s with currentScreen := target, pendingNavigation := none }
    | none =>
        if !s.userDataComplete && !(s.currentScreen = .register) then
          { s with currentScreen := .register }
        else if s.currentScreen = .homepage || s.currentScreen = .login
            || s.currentScreen = .signup then
          { s with currentScreen := .welcome }
        else s
  else if !sess.isSignedIn && (s.currentScreen = .home || s.currentScreen = .welcome) then
    { s with currentScreen := .homepage }
  else s

/-- Both session-driven effects in the order React reruns them after a
session change: profile completeness first (it only writes state the
auth flow reads), then the auth flow. -/
def onSessionChange (sess : Session) (s : RouterState) : RouterState :=
  authFlowEffect sess (profileEffect sess s)

/-- `handleNavigation` (App.tsx lines 233-235). -/
def handleNavigation (screen : Screen) (s : RouterState) : RouterState :=
  { s with currentScreen := screen }

/-- `handleGoToLogin` (App.tsx lines 182-184). -/
def handleGoToLogin (s : RouterState) : RouterState :=
  { s with currentScreen := .login }

/-- `handleGoToSignup` (App.tsx lines 186-188). -/
def handleGoToSignup (s : RouterState) : RouterState :=
  { s with currentScreen := .signup }

/-- `handleGoToRegister` (App.tsx lines 190-192). -/
def handleGoToRegister (s : RouterState) : RouterState :=
  { s with currentScreen := .register }

/-- `handleBackToHomepage` (App.tsx lines 194-198): exits professional
mode and returns to the homepage. -/
def handleBackToHomepage (s : RouterState) : RouterState :=
  { s with
    currentScreen := .homepage
    isProfessionalMode := false
    professionalScreen := none }

/-- `handleProfessionalPortalAccess` (App.tsx lines 237-240). -/
def handleProfessionalPortalAccess (s : RouterState) : RouterState :=
  { s with
    isProfessionalMode := true
    professionalScreen := some .professionalPortal }

/-- `handleSimpleSignupComplete` (App.tsx lines 242-244). -/
def handleSimpleSignupComplete (s : RouterState) : RouterState :=
  { s with isTempAccount := true }

/-- `handleWelcomeComplete` (App.tsx lines 246-248). -/
def handleWelcomeComplete (s : RouterState) : RouterState :=
  { s with currentScreen := .home }

/-- `handleOpenRegisterModal` (App.tsx lines 250-252). -/
def handleOpenRegisterModal (s : RouterState) : RouterState :=
  { s with showRegisterModal := true }

/-- `handleCloseRegisterModal` (App.tsx lines 254-256). -/
def handleCloseRegisterModal (s : RouterState) : RouterState :=
  { s with showRegisterModal := false }

/-- The restricted-feature list of App.tsx line 260. -/
def restrictedScreens : List Screen :=
  [.appointments, .aiSymptomChecker, .wellness]

/-- `handleTrialFeatureAccess` (App.tsx lines 258-265): a temporary
account requesting a restricted screen gets the register modal instead
of navigation. -/
def handleTrialFeatureAccess (featureScreen : Screen) (s : RouterState) : RouterState :=
  if s.isTempAccount && restrictedScreens.contains featureScreen then
    { s with showRegisterModal := true }
  else
    { s with currentScreen := featureScreen }

/-- The `screenMap` record of `handleNavigateToFeature`
(App.tsx lines 268-273); an absent key yields `undefined`. -/
def featureScreenMap (featureType : String) : Option Screen :=
  if featureType = "doctors" then some .doctors
  else if featureType = "medicine" then some .medicine
  else if featureType = "lab" then some .lab
  else if featureType = "ambulance" then some .ambulance
  else none

/-- `handleNavigateToFeature` (App.tsx lines 267-283): an unmapped key
is a no-op; a mapped key navigates directly when signed in, else stores
the target as pending and routes to signup. -/
def handleNavigateToFeature (isSignedIn : Bool) (featureType : String)
    (s : RouterState) : RouterState :=
  match featureScreenMap featureType with
  | none => s
  | some target =>
      if isSignedIn then { s with currentScreen := target }
      else { s with pendingNavigation := some target, currentScreen := .signup }

/-- `handleProfessionalPortalSelection` (App.tsx lines 285-287): sets
only `professionalScreen`. -/
def handleProfessionalPortalSelection (portal : ProfessionalScreen)
    (s : RouterState) : RouterState :=
  { s with professionalScreen := some portal }

/-- `handleBackToProfessionalPortal` (App.tsx lines 289-291). -/
def handleBackToProfessionalPortal (s : RouterState) : RouterState :=
  { s with professionalScreen := some .professionalPortal }

/-- The `screenMap` record of `handleTabChange` (App.tsx lines 294-301),
with its `|| "home"` default. -/
def tabScreenMap (tab : String) : Screen :=
  if tab = "home" then .home
  else if tab = "appointments" then .appointments
  else if tab = "wellness" then .wellness
  else if tab = "chat" then .chat
  else if tab = "profile" then .profile
  else .home

/-- `handleTabChange` (App.tsx lines 293-305): maps the tab then defers
to the trial-feature check. -/
def handleTabChange (tab : String) (s : RouterState) : RouterState :=
  handleTrialFeatureAccess (tabScreenMap tab) s

/-- Result of `handleRegistrationComplete`: the state after the callback
and whether the catch block logged an error. -/
structure RegOutcome where
  state : RouterState
  loggedError : Bool
deriving DecidableEq, Repr

/-- `handleRegistrationComplete` (App.tsx lines 200-231): with a user,
awaits `user.update`; on success marks the profile complete, clears the
temp flag, closes the modal and resolves any pending navigation (else
goes to `welcome`); if `user.update` throws, the catch logs the error
and no state update runs. Without a user nothing happens. -/
def handleRegistrationComplete (hasUser updateSucceeds : Bool)
    (s : RouterState) : RegOutcome :=
  if hasUser then
    if updateSucceeds then
      let s1 := { s with
        userDataComplete := true
        isTempAccount := false
        showRegisterModal := false }
      match s.pendingNavigation with
      | some target =>
          { state := { s1 with currentScreen := target, pendingNavigation := none }
            loggedError := false }
      | none =>
          { state := { s1 with currentScreen := .welcome }, loggedError := false }
    else { state := s, loggedError := true }
  else { state := s, loggedError := false }

/-- One element of a thrown Clerk error's `errors` array; only
`longMessage` is read (App.tsx lines 121, 158, 177). -/
structure ClerkError where
  longMessage : Option String
deriving DecidableEq, Repr

/-- Outcome of one awaited Clerk call: a resolved `status` string, or a
rejection carrying an `errors` array (absent or empty arrays behave
the same under `error.errors?.[0]?.longMessage`). -/
inductive ClerkOutcome
  | ok (status : String)
  | err (errors : List ClerkError)
deriving DecidableEq, Repr

/-- The result object the three auth callbacks return:
`{success, error?, needsVerification?}`. -/
structure AuthResult where
  success : Bool
  error : Option String
  needsVerification : Bool
deriving DecidableEq, Repr

/-- An auth callback's result plus how many times the primary
collaborator call (`signIn.create`, `signUp.create`, or
`attemptEmailAddressVerification`) was issued. -/
structure AuthCall where
  result : AuthResult
  collaboratorCalls : Nat
deriving DecidableEq, Repr

/-- `error.errors?.[0]?.longMessage` (App.tsx line 121 and twins). -/
def firstLongMessage (errors : List ClerkError) : Option String :=
  errors.head?.bind fun e => e.longMessage

/-- JavaScript `x || fallback` on an optional string: an absent or
empty (falsy) message yields the fallback. -/
def orFallback (m : Option String) (fallback : String) : String :=
  match m with
  | some msg => if msg = "" then fallback else msg
  | none => fallback

/-- `handleLogin` (App.tsx lines 102-124): guards on `signIn`
availability, calls `signIn.create` once, maps `status complete` to
success, any other status to a fixed failure, and a rejection to
`errors[0].longMessage || "Login failed"`. -/
def handleLogin (signInAvailable : Bool) (createOutcome : ClerkOutcome) : AuthCall :=
  if !signInAvailable then
    { result := { success := false, error := some "Login not available"
                  needsVerification := false }
      collaboratorCalls := 0 }
  else
    match createOutcome with
    | .ok status =>
        if status = "complete" then
          { result := { success := true, error := none, needsVerification := false }
            collaboratorCalls := 1 }
        else
          { result := { success := false
                        error := some "Additional verification required"
                        needsVerification := false }
            collaboratorCalls := 1 }
    | .err errors =>
        { result := { success := false
                      error := some (orFallback (firstLongMessage errors) "Login failed")
                      needsVerification := false }
          collaboratorCalls := 1 }

/-- `handleSignup` (App.tsx lines 126-161): guards on `signUp`
availability, calls `signUp.create` once; `missing_requirements`
triggers `prepareEmailAddressVerification` (whose rejection the same
catch maps to `longMessage || "Signup failed"`); `complete` optionally
runs `user.update` for a simple signup (rejection caught likewise);
any other status is `"Signup incomplete"`. -/
def handleSignup (signUpAvailable : Bool) (createOutcome : ClerkOutcome)
    (prepareErr updateErr : Option (List ClerkError))
    (isSimple hasUser : Bool) : AuthCall :=
  if !signUpAvailable then
    { result := { success := false, error := some "Signup not available"
                  needsVerification := false }
      collaboratorCalls := 0 }
  else
    match createOutcome with
    | .ok status =>
        if status = "missing_requirements" then
          match prepareErr with
          | some errors =>
              { result := { success := false
                            error := some (orFallback (firstLongMessage errors) "Signup failed")
                            needsVerification := false }
                collaboratorCalls := 1 }
          | none =>
              { result := { success := true, error := none, needsVerification := true }
                collaboratorCalls := 1 }
        else if status = "complete" then
          if isSimple && hasUser then
            match updateErr with
            | some errors =>
                { result := { success := false
                              error := some (orFallback (firstLongMessage errors) "Signup failed")
                              needsVerification := false }
                  collaboratorCalls := 1 }
            | none =>
                { result := { success := true, error := none, needsVerification := false }
                  collaboratorCalls := 1 }
          else
            { result := { success := true, error := none, needsVerification := false }
              collaboratorCalls := 1 }
        else
          { result := { success := false, error := some "Signup incomplete"
                        needsVerification := false }
            collaboratorCalls := 1 }
    | .err errors =>
        { result := { success := false
                      error := some (orFallback (firstLongMessage errors) "Signup failed")
                      needsVerification := false }
          collaboratorCalls := 1 }

/-- `handleVerifyEmail` (App.tsx lines 163-180). -/
def handleVerifyEmail (signUpAvailable : Bool) (attemptOutcome : ClerkOutcome) : AuthCall :=
  if !signUpAvailable then
    { result := { success := false, error := some "Verification not available"
                  needsVerification := false }
      collaboratorCalls := 0 }
  else
    match attemptOutcome with
    | .ok status =>
        if status = "complete" then
          { result := { success := true, error := none, needsVerification := false }
            collaboratorCalls := 1 }
        else
          { result := { success := false, error := some "Verification failed"
                        needsVerification := false }
            collaboratorCalls := 1 }
    | .err errors =>
        { result := { success := false
                      error := some (orFallback (firstLongMessage errors) "Verification failed")
                      needsVerification := false }
          collaboratorCalls := 1 }

/-- Every state-mutating operation of the router, with its inputs. -/
inductive Action
  | sessionChange (sess : Session)
  | navigation (screen : Screen)
  | goToLogin
  | goToSignup
  | goToRegister
  | backToHomepage
  | professionalPortalAccess
  | simpleSignupComplete
  | welcomeComplete
  | openRegisterModal
  | closeRegisterModal
  | trialFeatureAccess (screen : Screen)
  | navigateToFeature (isSignedIn : Bool) (featureType : String)
  | professionalPortalSelection (portal : ProfessionalScreen)
  | backToProfessionalPortal
  | tabChange (tab : String)
  | registrationComplete (hasUser updateSucceeds : Bool)
deriving DecidableEq, Repr

/-- Dispatch of an action to its embedded handler. -/
def step (a : Action) (s : RouterState) : RouterState :=
  match a with
  | .sessionChange sess => onSessionChange sess s
  | .navigation screen => handleNavigation screen s
  | .goToLogin => handleGoToLogin s
  | .goToSignup => handleGoToSignup s
  | .goToRegister => handleGoToRegister s
  | .backToHomepage => handleBackToHomepage s
  | .professionalPortalAccess => handleProfessionalPortalAccess s
  | .simpleSignupComplete => handleSimpleSignupComplete s
  | .welcomeComplete => handleWelcomeComplete s
  | .openRegisterModal => handleOpenRegisterModal s
  | .closeRegisterModal => handleCloseRegisterModal s
  | .trialFeatureAccess screen => handleTrialFeatureAccess screen s
  | .navigateToFeature si key => handleNavigateToFeature si key s
  | .professionalPortalSelection portal => handleProfessionalPortalSelection portal s
  | .backToProfessionalPortal => handleBackToProfessionalPortal s
  | .tabChange tab => handleTabChange tab s
  | .registrationComplete hasUser ok => (handleRegistrationComplete hasUser ok s).state

/-- The two actions only reachable from the professional-mode render
tree (the `ProfessionalPortal` and dashboard components,
App.tsx lines 308-333, mounted only when `isProfessionalMode` holds). -/
def professionalOnlyAction : Action → Bool
  | .professionalPortalSelection _ => true
  | .backToProfessionalPortal => true
  | _ => false

/-- The spec invariant: `professionalScreen` is non-null only while
`isProfessionalMode` is true. -/
def profInvariant (s : RouterState) : Bool :=
  s.professionalScreen.isNone || s.isProfessionalMode

namespace Proxy

/-- The incoming request as the handler reads it: `req.method` and
`req.body` (the parsed JSON body, kept abstract as the string
`JSON.stringify` produces for it). -/
structure ProxyRequest where
  method : String
  body : String
deriving DecidableEq, Repr

/-- The single `fetch` the handler may issue: URL, HTTP method, the
`Content-Type` header, and the serialized body. -/
structure ForwardedRequest where
  url : String
  method : String
  contentType : String
  body : String
deriving DecidableEq, Repr

/-- Outcome of `fetch` plus `backendResponse.json()`: parsed JSON data,
or a rejection (network failure or invalid JSON) landing in the catch. -/
inductive BackendOutcome
  | ok (data : String)
  | fail
deriving DecidableEq, Repr

/-- A response body: `res.json({error})` or the relayed backend JSON. -/
inductive RespBody
  | errorBody (msg : String)
  | jsonBody (data : String)
deriving DecidableEq, Repr

/-- What the handler sends back: `res.status(...)` and the JSON body. -/
structure ProxyResponse where
  status : Nat
  body : RespBody
deriving DecidableEq, Repr

/-- The proxy `handler` (src/unnamed/part_000): rejects non-POST with
405 before any fetch; otherwise forwards the body to `BACKEND_URL` via
POST with `Content-Type application/json` and relays the parsed backend
JSON with status 200, or answers 500 from the catch. The first
component records the fetch issued, `none` when the backend was never
contacted. -/
def handler (backendUrl : String) (req : ProxyRequest)
    (backend : BackendOutcome) : Option ForwardedRequest × ProxyResponse :=
  if !(req.method = "POST") then
    (none, { status := 405, body := .errorBody "Method not allowed" })
  else
    let fwd : ForwardedRequest :=
      { url := backendUrl, method := "POST"
        contentType := "application/json", body := req.body }
    match backend with
    | .ok data => (some fwd, { status := 200, body := .jsonBody data })
    | .fail => (some fwd, { status := 500, body := .errorBody "Failed to reach backend" })

end Proxy

/-! ### Helper lemmas -/

theorem profileEffect_currentScreen (sess : Session) (s : RouterState) :
    (profileEffect sess s).currentScreen = s.currentScreen := by
  unfold profileEffect
  split
  · rfl
  · split <;> rfl

theorem profileEffect_pendingNavigation (sess : Session) (s : RouterState) :
    (profileEffect sess s).pendingNavigation = s.pendingNavigation := by
  unfold profileEffect
  split
  · rfl
  · split <;> rfl

theorem onSessionChange_professionalScreen (sess : Session) (s : RouterState) :
    (onSessionChange sess s).professionalScreen = s.professionalScreen := by
  obtain ⟨L, SI, u⟩ := sess
  obtain ⟨cs, ps, pm, pn, ta, rm, ud⟩ := s
  cases L <;> cases SI <;> rcases u with _ | ⟨f1, f2, f3, mp, mt⟩ <;>
    cases pn <;> cases ud
  all_goals try rfl
  all_goals try (cases cs <;> rfl)
  all_goals cases f1 <;> cases f2 <;> cases f3 <;> cases mp <;> cases cs <;> rfl

theorem onSessionChange_isProfessionalMode (sess : Session) (s : RouterState) :
    (onSessionChange sess s).isProfessionalMode = s.isProfessionalMode := by
  obtain ⟨L, SI, u⟩ := sess
  obtain ⟨cs, ps, pm, pn, ta, rm, ud⟩ := s
  cases L <;> cases SI <;> rcases u with _ | ⟨f1, f2, f3, mp, mt⟩ <;>
    cases pn <;> cases ud
  all_goals try rfl
  all_goals try (cases cs <;> rfl)
  all_goals cases f1 <;> cases f2 <;> cases f3 <;> cases mp <;> cases cs <;> rfl

/-! ### Claims -/

/-- C7: entering professional mode (`handleProfessionalPortalAccess`)
sets `isProfessionalMode` to true and `professionalScreen` to the
portal-selection screen, whatever its prior value. -/
theorem c7_enter_professional_mode (s : RouterState) :
    handleProfessionalPortalAccess s =
      { s with
        isProfessionalMode := true
        professionalScreen := some .professionalPortal } := rfl

/-- C8: exiting professional mode (`handleBackToHomepage`) clears
`isProfessionalMode` and `professionalScreen` and returns to the
homepage, from every router state. -/
theorem c8_exit_professional_mode (s : RouterState) :
    handleBackToHomepage s =
      { s with
        currentScreen := .homepage
        isProfessionalMode := false
        professionalScreen := none } := rfl

/-- C2: for a temporary account, requesting a screen in
{appointments, ai-symptom-checker, wellness} only opens the register
modal, leaving every other field (including `currentScreen`) unchanged;
otherwise the request just navigates to the screen. -/
theorem c2_trial_feature_gate (s : RouterState) (screen : Screen) :
    (s.isTempAccount = true → screen ∈ restrictedScreens →
      handleTrialFeatureAccess screen s = { s with showRegisterModal := true }) ∧
    (s.isTempAccount = false ∨ screen ∉ restrictedScreens →
      handleTrialFeatureAccess screen s = { s with currentScreen := screen }) := by
  constructor
  · intro ht hm
    fin_cases hm <;> simp [handleTrialFeatureAccess, restrictedScreens, ht]
  · intro h
    rcases h with ht | hm
    · simp [handleTrialFeatureAccess, ht]
    · cases screen <;> simp_all [handleTrialFeatureAccess, restrictedScreens]

/-- C2 witness: a temporary account requesting the wellness screen gets
the modal; a full account requesting it navigates. -/
theorem c2_trial_feature_gate_witness :
    handleTrialFeatureAccess .wellness { initialState with isTempAccount := true } =
      { initialState with isTempAccount := true, showRegisterModal := true } ∧
    handleTrialFeatureAccess .wellness initialState =
      { initialState with currentScreen := .wellness } :=
  ⟨(c2_trial_feature_gate { initialState with isTempAccount := true } .wellness).1
      rfl (by decide),
   (c2_trial_feature_gate initialState .wellness).2 (Or.inl rfl)⟩

/-- C10: a feature key outside {doctors, medicine, lab, ambulance} makes
`handleNavigateToFeature` a no-op on the whole router state, signed in
or not. -/
theorem c10_unmapped_feature_noop (featureType : String) (isSignedIn : Bool)
    (s : RouterState)
    (h1 : featureType ≠ "doctors") (h2 : featureType ≠ "medicine")
    (h3 : featureType ≠ "lab") (h4 : featureType ≠ "ambulance") :
    handleNavigateToFeature isSignedIn featureType s = s := by
  unfold handleNavigateToFeature featureScreenMap
  simp [h1, h2, h3, h4]

/-- C10 witness: the key "appointments" is not mapped, so navigation is
a no-op even while signed out. -/
theorem c10_unmapped_feature_noop_witness :
    handleNavigateToFeature false "appointments" initialState = initialState :=
  c10_unmapped_feature_noop "appointments" false initialState
    (by decide) (by decide) (by decide) (by decide)

/-- C1: on any session-change reaction under a loaded, signed-in session
with a user, a pending navigation target is consumed: `currentScreen`
becomes the target and `pendingNavigation` becomes null. In particular,
`navigateToFeature "lab"` while signed out yields
`currentScreen = signup, pendingNavigation = lab`, and the reaction to a
signed-in session with a complete profile then yields
`currentScreen = lab, pendingNavigation = null`. -/
theorem c1_pending_navigation_resolution :
    (∀ (sess : Session) (s : RouterState) (target : Screen),
      sess.isLoaded = true → sess.isSignedIn = true → sess.user.isSome = true →
      s.pendingNavigation = some target →
      (onSessionChange sess s).currentScreen = target ∧
      (onSessionChange sess s).pendingNavigation = none) ∧
    handleNavigateToFeature false "lab" initialState =
      { initialState with currentScreen := .signup, pendingNavigation := some .lab } ∧
    (onSessionChange ⟨true, true, some ⟨true, true, true, true, false⟩⟩
        (handleNavigateToFeature false "lab" initialState)).currentScreen = .lab ∧
    (onSessionChange ⟨true, true, some ⟨true, true, true, true, false⟩⟩
        (handleNavigateToFeature false "lab" initialState)).pendingNavigation = none := by
  refine ⟨?_, by decide, by decide, by decide⟩
  intro sess s target hL hS hU hp
  have hp' : (profileEffect sess s).pendingNavigation = some target := by
    rw [profileEffect_pendingNavigation]; exact hp
  unfold onSessionChange authFlowEffect
  simp [hL, hS, hU, hp']

/-- C1 witness: the universal part applied to the scenario state. -/
theorem c1_pending_navigation_resolution_witness :
    (onSessionChange ⟨true, true, some ⟨true, true, true, true, false⟩⟩
        { initialState with currentScreen := .signup, pendingNavigation := some .lab }).currentScreen = .lab ∧
    (onSessionChange ⟨true, true, some ⟨true, true, true, true, false⟩⟩
        { initialState with currentScreen := .signup, pendingNavigation := some .lab }).pendingNavigation = none :=
  c1_pending_navigation_resolution.1
    ⟨true, true, some ⟨true, true, true, true, false⟩⟩
    { initialState with currentScreen := .signup, pendingNavigation := some .lab }
    .lab rfl rfl rfl rfl

/-- C4: if `user.update` throws during `handleRegistrationComplete`, the
error is logged and the router state is returned unchanged; on success,
`userDataComplete` becomes true, `isTempAccount` and `showRegisterModal`
false, and a pending navigation is resolved (else the screen becomes
`welcome`). -/
theorem c4_registration_failure_and_success (s : RouterState) :
    handleRegistrationComplete true false s = { state := s, loggedError := true } ∧
    (∀ target, s.pendingNavigation = some target →
      handleRegistrationComplete true true s =
        { state := { s with
            userDataComplete := true
            isTempAccount := false
            showRegisterModal := false
            currentScreen := target
            pendingNavigation := none }
          loggedError := false }) ∧
    (s.pendingNavigation = none →
      handleRegistrationComplete true true s =
        { state := { s with
            userDataComplete := true
            isTempAccount := false
            showRegisterModal := false
            currentScreen := .welcome }
          loggedError := false }) := by
  refine ⟨rfl, ?_, ?_⟩
  · intro target hp
    unfold handleRegistrationComplete
    simp [hp]
  · intro hp
    unfold handleRegistrationComplete
    simp [hp]

/-- C4 witness: the success path with a pending lab navigation. -/
theorem c4_registration_failure_and_success_witness :
    handleRegistrationComplete true true
        { initialState with pendingNavigation := some .lab } =
      { state := { initialState with
          userDataComplete := true
          isTempAccount := false
          showRegisterModal := false
          currentScreen := .lab
          pendingNavigation := none }
        loggedError := false } :=
  (c4_registration_failure_and_success
      { initialState with pendingNavigation := some .lab }).2.1 .lab rfl

/-- C6: the proxy answers non-POST with 405 and an error body without
contacting the backend; a POST body is forwarded unmodified to the
configured backend URL via POST with Content-Type application/json, and
the handler relays the backend JSON with status 200, or answers 500
with an error body on failure. -/
theorem c6_proxy_handler (backendUrl : String) (req : Proxy.ProxyRequest)
    (backend : Proxy.BackendOutcome) :
    (req.method ≠ "POST" →
      Proxy.handler backendUrl req backend =
        (none, { status := 405, body := .errorBody "Method not allowed" })) ∧
    (req.method = "POST" →
      (Proxy.handler backendUrl req backend).1 =
        some { url := backendUrl, method := "POST"
               contentType := "application/json", body := req.body } ∧
      (∀ data, backend = .ok data →
        (Proxy.handler backendUrl req backend).2 =
          { status := 200, body := .jsonBody data }) ∧
      (backend = .fail →
        (Proxy.handler backendUrl req backend).2 =
          { status := 500, body := .errorBody "Failed to reach backend" })) := by
  constructor
  · intro h
    unfold Proxy.handler
    simp [h]
  · intro h
    refine ⟨?_, ?_, ?_⟩
    · unfold Proxy.handler
      cases backend <;> simp [h]
    · intro data hb
      subst hb
      unfold Proxy.handler
      simp [h]
    · intro hb
      subst hb
      unfold Proxy.handler
      simp [h]

/-- C6 witness: a GET is rejected with 405 and no fetch; a POST is
forwarded and the backend data relayed with 200. -/
theorem c6_proxy_handler_witness :
    Proxy.handler "https://backend.example" ⟨"GET", "payload"⟩ .fail =
      (none, { status := 405, body := .errorBody "Method not allowed" }) ∧
    (Proxy.handler "https://backend.example" ⟨"POST", "payload"⟩ (.ok "data")).1 =
      some { url := "https://backend.example", method := "POST"
             contentType := "application/json", body := "payload" } ∧
    (Proxy.handler "https://backend.example" ⟨"POST", "payload"⟩ (.ok "data")).2 =
      { status := 200, body := .jsonBody "data" } :=
  ⟨(c6_proxy_handler "https://backend.example" ⟨"GET", "payload"⟩ .fail).1 (by decide),
   ((c6_proxy_handler "https://backend.example" ⟨"POST", "payload"⟩ (.ok "data")).2 rfl).1,
   ((c6_proxy_handler "https://backend.example" ⟨"POST", "payload"⟩ (.ok "data")).2 rfl).2.1
     "data" rfl⟩

/-- C3 counterexample: the claim as stated is false. From the initial
state (which satisfies the invariant), `handleProfessionalPortalSelection`
sets `professionalScreen` to a non-null value without setting
`isProfessionalMode`, breaking the invariant. -/
theorem c3_counterexample :
    profInvariant initialState = true ∧
    profInvariant
      (step (.professionalPortalSelection .doctorDashboard) initialState) = false := by
  decide

/-- C3 amended: the invariant (professionalScreen non-null implies
professional mode) is preserved by every router operation, provided the
two portal-selection operations — which the UI only exposes from the
professional-mode render tree — are invoked while `isProfessionalMode`
is already true. -/
theorem c3_prof_invariant_preserved (a : Action) (s : RouterState)
    (hinv : profInvariant s = true)
    (hguard : professionalOnlyAction a = true → s.isProfessionalMode = true) :
    profInvariant (step a s) = true := by
  cases a with
  | sessionChange sess =>
      simpa [profInvariant, step, onSessionChange_professionalScreen,
        onSessionChange_isProfessionalMode] using hinv
  | navigation screen =>
      simpa [profInvariant, step, handleNavigation] using hinv
  | goToLogin => simpa [profInvariant, step, handleGoToLogin] using hinv
  | goToSignup => simpa [profInvariant, step, handleGoToSignup] using hinv
  | goToRegister => simpa [profInvariant, step, handleGoToRegister] using hinv
  | backToHomepage => simp [profInvariant, step, handleBackToHomepage]
  | professionalPortalAccess =>
      simp [profInvariant, step, handleProfessionalPortalAccess]
  | simpleSignupComplete =>
      simpa [profInvariant, step, handleSimpleSignupComplete] using hinv
  | welcomeComplete => simpa [profInvariant, step, handleWelcomeComplete] using hinv
  | openRegisterModal =>
      simpa [profInvariant, step, handleOpenRegisterModal] using hinv
  | closeRegisterModal =>
      simpa [profInvariant, step, handleCloseRegisterModal] using hinv
  | trialFeatureAccess screen =>
      simp only [step, handleTrialFeatureAccess]
      split
      · simpa [profInvariant] using hinv
      · simpa [profInvariant] using hinv
  | navigateToFeature si key =>
      simp only [step, handleNavigateToFeature]
      rcases hm : featureScreenMap key with _ | target
      · simpa [hm] using hinv
      · rcases si with _ | _ <;> simpa [hm, profInvariant] using hinv
  | professionalPortalSelection portal =>
      have hmode := hguard rfl
      simp [profInvariant, step, handleProfessionalPortalSelection, hmode]
  | backToProfessionalPortal =>
      have hmode := hguard rfl
      simp [profInvariant, step, handleBackToProfessionalPortal, hmode]
  | tabChange tab =>
      simp only [step, handleTabChange, handleTrialFeatureAccess]
      split
      · simpa [profInvariant] using hinv
      · simpa [profInvariant] using hinv
  | registrationComplete hasUser ok =>
      obtain ⟨cs, ps, pm, pn, ta, rm, ud⟩ := s
      cases hasUser <;> cases ok <;> cases pn <;>
        simpa [profInvariant, step, handleRegistrationComplete] using hinv

/-- C3 amended witness: selecting the doctor dashboard from the portal
screen while already in professional mode keeps the invariant. -/
theorem c3_prof_invariant_preserved_witness :
    profInvariant
      (step (.professionalPortalSelection .doctorDashboard)
        (handleProfessionalPortalAccess initialState)) = true :=
  c3_prof_invariant_preserved (.professionalPortalSelection .doctorDashboard)
    (handleProfessionalPortalAccess initialState) (by decide) (by decide)

/-- C9 counterexample: the session-change reaction is not idempotent.
With a signed-in session whose user has an incomplete profile and a
pending `lab` navigation, the first reaction lands on `lab` with the
profile incomplete, and a second identical reaction redirects to
`register`. -/
theorem c9_counterexample :
    onSessionChange ⟨true, true, some ⟨false, false, false, false, false⟩⟩
        (onSessionChange ⟨true, true, some ⟨false, false, false, false, false⟩⟩
          { initialState with currentScreen := .signup, pendingNavigation := some .lab }) ≠
      onSessionChange ⟨true, true, some ⟨false, false, false, false, false⟩⟩
        { initialState with currentScreen := .signup, pendingNavigation := some .lab } := by
  decide

set_option maxHeartbeats 2000000 in
/-- C9 amended: the session-change reaction is idempotent for every
router state with no pending navigation: applying it twice with the
same session input equals applying it once. (With a pending target the
second application may further redirect, e.g. to `register`.) -/
theorem c9_session_change_idempotent (sess : Session) (s : RouterState)
    (h : s.pendingNavigation = none) :
    onSessionChange sess (onSessionChange sess s) = onSessionChange sess s := by
  obtain ⟨L, SI, u⟩ := sess
  obtain ⟨cs, ps, pm, pn, ta, rm, ud⟩ := s
  have h' : pn = none := h
  subst h'
  cases L <;> cases SI <;> rcases u with _ | ⟨f1, f2, f3, mp, mt⟩ <;> cases ud
  all_goals try rfl
  all_goals try (cases cs <;> rfl)
  all_goals cases f1 <;> cases f2 <;> cases f3 <;> cases mp <;> cases cs <;> rfl

/-- C9 amended witness: the reaction to a fresh signed-in session with
an incomplete profile is idempotent from the initial state. -/
theorem c9_session_change_idempotent_witness :
    onSessionChange ⟨true, true, some ⟨false, false, false, false, false⟩⟩
        (onSessionChange ⟨true, true, some ⟨false, false, false, false, false⟩⟩
          initialState) =
      onSessionChange ⟨true, true, some ⟨false, false, false, false, false⟩⟩
        initialState :=
  c9_session_change_idempotent
    ⟨true, true, some ⟨false, false, false, false, false⟩⟩ initialState rfl

/-- C5 counterexample: the error string is not always the collaborator's
message verbatim. When `signIn.create` rejects with an error whose first
`errors` entry has no `longMessage` (the collaborator's message sitting
in the second entry), `handleLogin` surfaces the local fallback
"Login failed" instead. -/
theorem c5_counterexample :
    (handleLogin true (.err [⟨none⟩, ⟨some "Real reason"⟩])).result =
      { success := false, error := some "Login failed", needsVerification := false } ∧
    ("Login failed" : String) ≠ "Real reason" := by
  constructor
  · rfl
  · decide

/-- C5 amended: every failure of login, signup, and email verification
is a typed result with success false and an error string present, the
primary collaborator call is issued at most once (no retry), and the
collaborator's message is surfaced verbatim exactly when the rejection
carries a non-empty `longMessage` in its first `errors` entry;
otherwise a fixed local string is returned. -/
theorem c5_failure_surfacing :
    (∀ (avail : Bool) (out : ClerkOutcome),
      ((handleLogin avail out).result.success = false →
        ((handleLogin avail out).result.error).isSome = true) ∧
      (handleLogin avail out).collaboratorCalls ≤ 1) ∧
    (∀ (errors : List ClerkError) (msg : String),
      firstLongMessage errors = some msg → msg ≠ "" →
      (handleLogin true (.err errors)).result =
        { success := false, error := some msg, needsVerification := false }) ∧
    (∀ (avail : Bool) (out : ClerkOutcome) (pe ue : Option (List ClerkError))
        (isSimple hasUser : Bool),
      ((handleSignup avail out pe ue isSimple hasUser).result.success = false →
        ((handleSignup avail out pe ue isSimple hasUser).result.error).isSome = true) ∧
      (handleSignup avail out pe ue isSimple hasUser).collaboratorCalls ≤ 1) ∧
    (∀ (errors : List ClerkError) (msg : String) (pe ue : Option (List ClerkError))
        (isSimple hasUser : Bool),
      firstLongMessage errors = some msg → msg ≠ "" →
      (handleSignup true (.err errors) pe ue isSimple hasUser).result =
        { success := false, error := some msg, needsVerification := false }) ∧
    (∀ (avail : Bool) (out : ClerkOutcome),
      ((handleVerifyEmail avail out).result.success = false →
        ((handleVerifyEmail avail out).result.error).isSome = true) ∧
      (handleVerifyEmail avail out).collaboratorCalls ≤ 1) ∧
    (∀ (errors : List ClerkError) (msg : String),
      firstLongMessage errors = some msg → msg ≠ "" →
      (handleVerifyEmail true (.err errors)).result =
        { success := false, error := some msg, needsVerification := false }) := by
  refine ⟨?_, ?_, ?_, ?_, ?_, ?_⟩
  · intro avail out
    cases avail <;> rcases out with st | e <;>
      simp [handleLogin] <;> split_ifs <;> simp
  · intro errors msg h1 h2
    simp [handleLogin, orFallback, h1, h2]
  · intro avail out pe ue isSimple hasUser
    cases avail <;> rcases out with st | e <;>
      rcases pe with _ | pes <;> rcases ue with _ | ues <;>
      cases isSimple <;> cases hasUser <;>
      simp [handleSignup] <;> split_ifs <;> simp
  · intro errors msg pe ue isSimple hasUser h1 h2
    simp [handleSignup, orFallback, h1, h2]
  · intro avail out
    cases avail <;> rcases out with st | e <;>
      simp [handleVerifyEmail] <;> split_ifs <;> simp
  · intro errors msg h1 h2
    simp [handleVerifyEmail, orFallback, h1, h2]

/-- C5 amended witness: a rejection of `signIn.create` carrying the
message "Invalid credentials" is surfaced verbatim, with one
collaborator call and a typed failure. -/
theorem c5_failure_surfacing_witness :
    (handleLogin true (.err [⟨some "Invalid credentials"⟩])).result =
      { success := false, error := some "Invalid credentials"
        needsVerification := false } ∧
    (handleLogin true (.err [⟨some "Invalid credentials"⟩])).collaboratorCalls ≤ 1 :=
  ⟨c5_failure_surfacing.2.1 [⟨some "Invalid credentials"⟩] "Invalid credentials"
      rfl (by decide),
   (c5_failure_surfacing.1 true (.err [⟨some "Invalid credentials"⟩])).2⟩

end Medifast

